import Mathlib

/-!
Shallow embedding of the z3.rs model/symbol layer (src/z3/src/model.rs and
src/z3/src/symbol.rs).

The Rust code is a thin safe wrapper over the Z3 C API. We embed it as
follows:

* Raw engine handles (`Z3_context`, `Z3_model`, `Z3_ast`, ...) are natural
  numbers; a nullable return value of the C API is an `Option`.
* The engine itself is an abstract oracle `Engine`: a record of pure
  functions giving the answer of every C-API query the wrapper issues.
  The wrapper never inspects these answers beyond null checks, so any
  oracle is a possible engine behaviour.
* The only state the wrapper mutates is the engine-side reference count of
  model handles, through `Z3_model_inc_ref` / `Z3_model_dec_ref`.  We model
  those two calls as emitting `RefEvent`s; every embedded wrapper function
  returns, next to its result, the list of reference-count events its body
  performs, in order.  "this operation changes no reference count" is then
  the statement that its event list is empty.
* A Rust panic (a failed `assert_eq!` or `.unwrap()`) is the `panicked`
  outcome of `RustOutcome`; functions that cannot panic keep their plain
  result type.
* The generic parameter `T: Ast` of the Rust code is a type parameter
  `α` together with an `AstOps α` record holding the two capabilities the
  spec requires of every expression kind (wrap-from-handle, retrieve this
  value's sort) plus the raw-handle accessor `get_z3_ast` used by `eval`.
  `ast.rs` is not part of the sources, so these capabilities are abstract.
-/

namespace Z3

/-- Raw `Z3_context` pointer. -/
abbrev CtxH := Nat

/-- Raw `Z3_model` pointer (a non-null one; nullable API results are `Option ModelH`). -/
abbrev ModelH := Nat

/-- Raw `Z3_ast` pointer. -/
abbrev AstH := Nat

/-- Raw `Z3_func_decl` pointer. -/
abbrev FuncDeclH := Nat

/-- Raw `Z3_sort` pointer. -/
abbrev SortH := Nat

/-- Raw `Z3_solver` pointer. -/
abbrev SolverH := Nat

/-- Raw `Z3_optimize` pointer. -/
abbrev OptimizeH := Nat

/-- A reference-count event performed against the engine: one call of
`Z3_model_inc_ref` or `Z3_model_dec_ref` on a model handle of a context. -/
inductive RefEvent where
  | inc (ctx : CtxH) (mdl : ModelH)
  | dec (ctx : CtxH) (mdl : ModelH)
deriving DecidableEq, Repr

/-- Outcome of a Rust computation that may abort: either a value, or a panic
(`assert_eq!` failure, `.unwrap()` on an empty case). -/
inductive RustOutcome (α : Type) where
  | ok (a : α)
  | panicked
deriving DecidableEq, Repr

/-- The byte string behind a `char const *` returned by the engine:
`utf8Decode` is the result of `CStr::to_str` (`some s` exactly when the bytes
are valid UTF-8 decoding to `s`); the byte level itself stays abstract. -/
structure CBytes where
  utf8Decode : Option String
deriving DecidableEq

/-- What the engine records for a symbol handle: `Z3_mk_int_symbol` stores a
C `int`, `Z3_mk_string_symbol` stores the text of the passed C string (the
wrapper only ever passes bytes of a valid Rust string, so we keep the decoded
text). -/
inductive Z3SymbolV where
  | int (i : Int)
  | str (s : String)
deriving DecidableEq, Repr

/-- Result of `Z3_get_symbol_kind`. -/
inductive SymbolKind where
  | int
  | str
deriving DecidableEq, Repr

/-- The engine oracle: the answers of every C-API query the wrapper issues.
Each field models one `Z3_*` query; nullable pointers are `Option`. -/
structure Engine where
  /-- `Z3_solver_get_model` (null when the last check was not satisfiable or
  no check has been run). -/
  solverModel : CtxH → SolverH → Option ModelH
  /-- `Z3_optimize_get_model`. -/
  optimizeModel : CtxH → OptimizeH → Option ModelH
  /-- `Z3_model_translate src_ctx mdl dest_ctx`. -/
  translateModel : CtxH → ModelH → CtxH → ModelH
  /-- `Z3_model_eval ctx mdl ast completion`: `some out` when the call
  returns true and writes `out`, `none` when it returns false. -/
  modelEval : CtxH → ModelH → AstH → Bool → Option AstH
  /-- `Z3_model_get_num_consts`. -/
  numConsts : CtxH → ModelH → Nat
  /-- `Z3_model_get_const_decl ctx mdl index`. -/
  constDecl : CtxH → ModelH → Nat → FuncDeclH
  /-- `Z3_model_get_const_interp ctx mdl decl` (null when the model assigns
  no interpretation to the constant). -/
  constInterp : CtxH → ModelH → FuncDeclH → Option AstH
  /-- `Z3_get_sort`. -/
  astSort : CtxH → AstH → SortH
  /-- `Z3_model_to_string` (null pointer modeled as `none`). -/
  modelToString : CtxH → ModelH → Option CBytes

/-- Rust `Context`: wraps the raw `Z3_context`. -/
structure Context where
  z3_ctx : CtxH
deriving DecidableEq

/-- Rust `Model<'ctx>`: a context reference plus the wrapped `Z3_model`. -/
structure Model where
  ctx : Context
  z3_mdl : ModelH
deriving DecidableEq

/-- Rust `Solver<'ctx>` (fields as consumed by `model.rs`). -/
structure Solver where
  ctx : Context
  z3_slv : SolverH
deriving DecidableEq

/-- Rust `Optimize<'ctx>` (fields as consumed by `model.rs`). -/
structure Optimize where
  ctx : Context
  z3_opt : OptimizeH
deriving DecidableEq

/-- Rust `FuncDecl<'ctx>` (fields as consumed by `model.rs`). -/
structure FuncDecl where
  ctx : Context
  z3_func_decl : FuncDeclH
deriving DecidableEq

/-- Rust `Sort<'ctx>`. Modelled from the spec: `sort.rs` is not among the
sources; the spec uses Sort only as "the type tag of an expression ... used
only to validate that a typed query result matches the caller's expected
static type", so a Sort is its context plus raw handle, compared for
equality componentwise. -/
structure ZSort where
  ctx : Context
  z3_sort : SortH
deriving DecidableEq

/-- Modelled from the spec: the expression family (`ast.rs`, not among the
sources) exposes, for every concrete expression kind `α`,
"construct a typed wrapper from a raw expression handle plus context"
(`wrap`), "retrieve this value's sort" (`get_sort`), and the raw handle
accessor (`get_z3_ast`) that `Model::eval` reads. -/
structure AstOps (α : Type) where
  wrap : Context → AstH → α
  get_z3_ast : α → AstH
  get_sort : α → ZSort

/-- `Z3_model_inc_ref`: the one reference-count increment primitive; returns
the event it performs. -/
def Z3_model_inc_ref (ctx : CtxH) (mdl : ModelH) : List RefEvent :=
  [RefEvent.inc ctx mdl]

/-- `Z3_model_dec_ref`: the one reference-count decrement primitive; returns
the event it performs. -/
def Z3_model_dec_ref (ctx : CtxH) (mdl : ModelH) : List RefEvent :=
  [RefEvent.dec ctx mdl]

/-- `Sort::wrap` (modelled from the spec, see `ZSort`). -/
def ZSort.wrap (ctx : Context) (h : SortH) : ZSort :=
  { ctx := ctx, z3_sort := h }

/-- `FuncDecl::wrap` as consumed by `model.rs`: per the spec a FuncDecl is
"not owned beyond the query result, re-wrapped per access"; it holds no model
reference count, so wrapping emits no model `RefEvent`. -/
def FuncDecl.wrap (ctx : Context) (h : FuncDeclH) : FuncDecl :=
  { ctx := ctx, z3_func_decl := h }

/-- `Model::wrap`: increments the handle's reference count once and builds
the wrapper (model.rs lines 11-14). -/
def Model.wrap (ctx : Context) (z3_mdl : ModelH) : Model × List RefEvent :=
  ({ ctx := ctx, z3_mdl := z3_mdl }, Z3_model_inc_ref ctx.z3_ctx z3_mdl)

/-- `Model::of_solver` (model.rs lines 16-25): null handle gives `None`,
otherwise wrap the handle with the solver's context. -/
def Model.of_solver (E : Engine) (slv : Solver) : Option Model × List RefEvent :=
  match E.solverModel slv.ctx.z3_ctx slv.z3_slv with
  | none => (none, [])
  | some m =>
      let w := Model.wrap slv.ctx m
      (some w.fst, w.snd)

/-- `Model::of_optimize` (model.rs lines 27-36). -/
def Model.of_optimize (E : Engine) (opt : Optimize) : Option Model × List RefEvent :=
  match E.optimizeModel opt.ctx.z3_ctx opt.z3_opt with
  | none => (none, [])
  | some m =>
      let w := Model.wrap opt.ctx m
      (some w.fst, w.snd)

/-- `Model::translate` (model.rs lines 39-46): wrap, in the destination
context, the handle `Z3_model_translate` returns. -/
def Model.translate (E : Engine) (self : Model) (dest : Context) : Model × List RefEvent :=
  Model.wrap dest (E.translateModel self.ctx.z3_ctx self.z3_mdl dest.z3_ctx)

/-- `Model::eval` (model.rs lines 48-69): call `Z3_model_eval`; on success
wrap the written-back handle with the model's context, on failure `None`. -/
def Model.eval {α : Type} (ops : AstOps α) (E : Engine) (self : Model)
    (ast : α) (model_completion : Bool) : Option α × List RefEvent :=
  match E.modelEval self.ctx.z3_ctx self.z3_mdl (ops.get_z3_ast ast) model_completion with
  | some tmp => (some (ops.wrap self.ctx tmp), [])
  | none => (none, [])

/-- `Model::get_num_consts` (model.rs lines 72-74). -/
def Model.get_num_consts (E : Engine) (self : Model) : Nat × List RefEvent :=
  (E.numConsts self.ctx.z3_ctx self.z3_mdl, [])

/-- `Model::get_const_decl` (model.rs lines 78-89): `None` when the index is
at least `get_num_consts`, otherwise wrap the engine's index-th declaration. -/
def Model.get_const_decl (E : Engine) (self : Model) (index : Nat) :
    Option FuncDecl × List RefEvent :=
  if index ≥ (Model.get_num_consts E self).fst then
    (none, (Model.get_num_consts E self).snd)
  else
    (some (FuncDecl.wrap self.ctx (E.constDecl self.ctx.z3_ctx self.z3_mdl index)),
      (Model.get_num_consts E self).snd)

/-- `Model::get_const_interp` (model.rs lines 98-117): null interpretation
gives `None`; otherwise wrap the value, then `assert_eq!` the value's own
sort against the interpretation's runtime sort, panicking on mismatch. -/
def Model.get_const_interp {α : Type} (ops : AstOps α) (E : Engine) (self : Model)
    (func_decl : FuncDecl) : RustOutcome (Option α) × List RefEvent :=
  match E.constInterp self.ctx.z3_ctx self.z3_mdl func_decl.z3_func_decl with
  | none => (RustOutcome.ok none, [])
  | some res_ast =>
      let res_ast_sort := ZSort.wrap self.ctx (E.astSort self.ctx.z3_ctx res_ast)
      let res := ops.wrap self.ctx res_ast
      if ops.get_sort res = res_ast_sort then
        (RustOutcome.ok (some res), [])
      else
        (RustOutcome.panicked, [])

/-- `Model::get_const_interp_unchecked` (model.rs lines 134-147): same
presence logic, no sort check, cannot panic. -/
def Model.get_const_interp_unchecked {α : Type} (ops : AstOps α) (E : Engine)
    (self : Model) (func_decl : FuncDecl) : Option α × List RefEvent :=
  match E.constInterp self.ctx.z3_ctx self.z3_mdl func_decl.z3_func_decl with
  | none => (none, [])
  | some res_ast => (some (ops.wrap self.ctx res_ast), [])

/-- `impl Display for Model` (model.rs lines 150-161): `Err` on a null
pointer from `Z3_model_to_string` and on a `CStr::to_str` failure, otherwise
the written text. The `fmt::Formatter` sink is abstracted as infallible, so
the result is the text written on success and `Except.error` on the two
failure branches of the source. -/
def Model.fmtDisplay (E : Engine) (self : Model) :
    Except Unit String × List RefEvent :=
  match E.modelToString self.ctx.z3_ctx self.z3_mdl with
  | none => (Except.error (), [])
  | some p =>
      match p.utf8Decode with
      | some s => (Except.ok s, [])
      | none => (Except.error (), [])

/-- `impl Drop for Model` (model.rs lines 169-173): one decrement. -/
def Model.drop (self : Model) : List RefEvent :=
  Z3_model_dec_ref self.ctx.z3_ctx self.z3_mdl

/-- Rust `Symbol` (two mutually exclusive variants; the integer payload is a
`u32`, kept as a `Nat` with the `u32` range as a side condition where it
matters). -/
inductive Symbol where
  | Int (i : Nat)
  | String (s : String)
deriving DecidableEq, Repr

/-- The Rust cast `u32 as c_int`: reinterpret a value below `2^32` as a
signed 32-bit integer. -/
def u32_as_c_int (i : Nat) : Int :=
  if i < 2147483648 then (i : Int) else (i : Int) - 4294967296

/-- The Rust cast `c_int as u32`: reduce modulo `2^32` into `[0, 2^32)`. -/
def c_int_as_u32 (j : Int) : Nat :=
  (j % 4294967296).toNat

/-- `CString::new`: fails (returns the empty case) exactly when the string
contains an interior NUL byte; in UTF-8 text a NUL byte occurs exactly as
the character of code 0. -/
def cstring_new (s : String) : Option String :=
  if s.toList.contains (Char.ofNat 0) then none else some s

/-- `Z3_mk_int_symbol`: the engine records an integer symbol with the passed
C `int`. -/
def Z3_mk_int_symbol (_ctx : Context) (i : Int) : Z3SymbolV :=
  Z3SymbolV.int i

/-- `Z3_mk_string_symbol`: the engine records a string symbol with the text
of the passed null-terminated string. -/
def Z3_mk_string_symbol (_ctx : Context) (s : String) : Z3SymbolV :=
  Z3SymbolV.str s

/-- `Z3_get_symbol_kind`. -/
def Z3_get_symbol_kind (_ctx : Context) : Z3SymbolV → SymbolKind
  | Z3SymbolV.int _ => SymbolKind.int
  | Z3SymbolV.str _ => SymbolKind.str

/-- `Z3_get_symbol_int` (meaningful only on an integer symbol; the wrapper
guards with `Z3_get_symbol_kind`). -/
def Z3_get_symbol_int (_ctx : Context) : Z3SymbolV → Int
  | Z3SymbolV.int i => i
  | Z3SymbolV.str _ => 0

/-- `Z3_get_symbol_string` (meaningful only on a string symbol; the wrapper
guards with `Z3_get_symbol_kind`). -/
def Z3_get_symbol_string (_ctx : Context) : Z3SymbolV → String
  | Z3SymbolV.int _ => ""
  | Z3SymbolV.str s => s

/-- `to_string_lossy().into_owned()` on the bytes of a string the engine
stored: those bytes came from a valid Rust string (see `Z3SymbolV`), and
lossy conversion of valid UTF-8 is the identity. -/
def string_lossy (s : String) : String := s

/-- `Symbol::as_z3_symbol` (symbol.rs lines 7-16): the integer variant goes
through the `u32 as c_int` cast; the string variant goes through
`CString::new(...).unwrap()`, panicking when the conversion fails. -/
def Symbol.as_z3_symbol (self : Symbol) (ctx : Context) : RustOutcome Z3SymbolV :=
  match self with
  | Symbol.Int i => RustOutcome.ok (Z3_mk_int_symbol ctx (u32_as_c_int i))
  | Symbol.String s =>
      match cstring_new s with
      | none => RustOutcome.panicked
      | some ss => RustOutcome.ok (Z3_mk_string_symbol ctx ss)

/-- `Symbol::from_z3_symbol` (symbol.rs lines 18-29): dispatch on the symbol
kind, decode the integer payload through `as u32` or the string payload
through the lossy text conversion. -/
def Symbol.from_z3_symbol (ctx : Context) (symbol : Z3SymbolV) : Symbol :=
  match Z3_get_symbol_kind ctx symbol with
  | SymbolKind.int => Symbol.Int (c_int_as_u32 (Z3_get_symbol_int ctx symbol))
  | SymbolKind.str => Symbol.String (string_lossy (Z3_get_symbol_string ctx symbol))

/-! Concrete fixtures: one small engine oracle and a few wrapper values,
used to evaluate the theorems on explicit inputs. -/

/-- A concrete context. -/
def ctxA : Context := { z3_ctx := 1 }

/-- A second concrete context (used as a translation destination). -/
def ctxB : Context := { z3_ctx := 2 }

/-- A concrete model wrapper over handle 10 in `ctxA`. -/
def mdlA : Model := { ctx := ctxA, z3_mdl := 10 }

/-- A concrete solver in `ctxA`. -/
def slvA : Solver := { ctx := ctxA, z3_slv := 20 }

/-- A concrete optimizer in `ctxA`. -/
def optA : Optimize := { ctx := ctxA, z3_opt := 21 }

/-- A concrete constant declaration that `engA` assigns an interpretation. -/
def fdA : FuncDecl := { ctx := ctxA, z3_func_decl := 100 }

/-- A concrete constant declaration with no interpretation in `engA`. -/
def fdB : FuncDecl := { ctx := ctxA, z3_func_decl := 101 }

/-- A concrete engine oracle: the solver holds model 10, the model assigns
two constants, declaration 100 is interpreted by ast 50 of sort 7, and the
model renders to the text "model". -/
def engA : Engine where
  solverModel := fun _ _ => some 10
  optimizeModel := fun _ _ => some 11
  translateModel := fun _ _ _ => 12
  modelEval := fun _ _ a b => if b then some (a + 1) else none
  numConsts := fun _ _ => 2
  constDecl := fun _ _ i => 100 + i
  constInterp := fun _ _ fd => if fd = 100 then some 50 else none
  astSort := fun _ _ => 7
  modelToString := fun _ _ => some { utf8Decode := some "model" }

/-- A concrete expression kind whose values are the raw handles and whose
static sort agrees with `engA`'s runtime sorts. -/
def opsA : AstOps Nat where
  wrap := fun _ h => h
  get_z3_ast := fun a => a
  get_sort := fun _ => ZSort.wrap ctxA 7

/-- A concrete expression kind whose static sort disagrees with `engA`'s
runtime sorts. -/
def opsB : AstOps Nat where
  wrap := fun _ h => h
  get_z3_ast := fun a => a
  get_sort := fun _ => ZSort.wrap ctxA 8

/-- Characterization of the result of `Model.get_const_interp`: null
interpretation gives the empty case, otherwise the sort comparison decides
between the value and a panic. -/
theorem get_const_interp_fst_eq {α : Type} (ops : AstOps α) (E : Engine)
    (m : Model) (fd : FuncDecl) :
    (Model.get_const_interp ops E m fd).fst =
      match E.constInterp m.ctx.z3_ctx m.z3_mdl fd.z3_func_decl with
      | none => RustOutcome.ok none
      | some a =>
          if ops.get_sort (ops.wrap m.ctx a) = ZSort.wrap m.ctx (E.astSort m.ctx.z3_ctx a)
          then RustOutcome.ok (some (ops.wrap m.ctx a))
          else RustOutcome.panicked := by
  unfold Model.get_const_interp
  cases E.constInterp m.ctx.z3_ctx m.z3_mdl fd.z3_func_decl with
  | none => rfl
  | some a =>
      by_cases hs :
        ops.get_sort (ops.wrap m.ctx a) = ZSort.wrap m.ctx (E.astSort m.ctx.z3_ctx a) <;>
        simp [hs]

/-- C1: `get_const_interp` establishes presence first: exactly when the
engine reports no interpretation it returns the empty case, and then it
never panics, whatever the sorts; only when a value is present does it
compare the wrapped value's own sort with the interpretation's runtime
sort, returning the value on equality and panicking (not returning) on any
mismatch. -/
theorem get_const_interp_presence_then_sort_check {α : Type} (ops : AstOps α)
    (E : Engine) (m : Model) (fd : FuncDecl) :
    (E.constInterp m.ctx.z3_ctx m.z3_mdl fd.z3_func_decl = none →
      (Model.get_const_interp ops E m fd).fst = RustOutcome.ok none) ∧
    ((Model.get_const_interp ops E m fd).fst = RustOutcome.ok none →
      E.constInterp m.ctx.z3_ctx m.z3_mdl fd.z3_func_decl = none) ∧
    (∀ a, E.constInterp m.ctx.z3_ctx m.z3_mdl fd.z3_func_decl = some a →
      (ops.get_sort (ops.wrap m.ctx a) = ZSort.wrap m.ctx (E.astSort m.ctx.z3_ctx a) →
        (Model.get_const_interp ops E m fd).fst =
          RustOutcome.ok (some (ops.wrap m.ctx a))) ∧
      (ops.get_sort (ops.wrap m.ctx a) ≠ ZSort.wrap m.ctx (E.astSort m.ctx.z3_ctx a) →
        (Model.get_const_interp ops E m fd).fst = RustOutcome.panicked)) := by
  refine ⟨fun h => ?_, fun h => ?_, fun a ha => ⟨fun hs => ?_, fun hs => ?_⟩⟩
  · rw [get_const_interp_fst_eq, h]
  · rw [get_const_interp_fst_eq] at h
    cases hI : E.constInterp m.ctx.z3_ctx m.z3_mdl fd.z3_func_decl with
    | none => rfl
    | some a =>
        rw [hI] at h
        exfalso
        revert h
        by_cases hs :
          ops.get_sort (ops.wrap m.ctx a) = ZSort.wrap m.ctx (E.astSort m.ctx.z3_ctx a) <;>
          simp [hs]
  · simp [get_const_interp_fst_eq, ha, hs]
  · simp [get_const_interp_fst_eq, ha, hs]

/-- Witness for C1 at the concrete fixtures: an interpreted declaration with
matching sorts yields the value, the same declaration under a
disagreeing static sort panics, and an uninterpreted declaration yields the
empty case. -/
theorem get_const_interp_presence_then_sort_check_witness :
    (Model.get_const_interp opsA engA mdlA fdA).fst = RustOutcome.ok (some 50) ∧
    (Model.get_const_interp opsB engA mdlA fdA).fst = RustOutcome.panicked ∧
    (Model.get_const_interp opsA engA mdlA fdB).fst = RustOutcome.ok none := by
  refine ⟨?_, ?_, ?_⟩
  · exact ((get_const_interp_presence_then_sort_check opsA engA mdlA fdA).2.2 50
      (by decide)).1 (by decide)
  · exact ((get_const_interp_presence_then_sort_check opsB engA mdlA fdA).2.2 50
      (by decide)).2 (by decide)
  · exact (get_const_interp_presence_then_sort_check opsA engA mdlA fdB).1 (by decide)

/-- C2: each construction path (`of_solver`, `of_optimize`, `translate`)
performs exactly one reference-count increment, on the wrapped handle, at
wrap time (and none when construction yields the empty case); destruction
performs exactly one decrement; and every query operation (`eval`,
`get_num_consts`, `get_const_decl`, `get_const_interp`,
`get_const_interp_unchecked`, textual rendering) performs no
reference-count event at all. -/
theorem model_refcount_discipline {α : Type} (ops : AstOps α) (E : Engine)
    (slv : Solver) (opt : Optimize) (m : Model) (dest : Context) (a : α)
    (b : Bool) (fd : FuncDecl) (i : Nat) :
    (∀ mdl, (Model.of_solver E slv).fst = some mdl →
      (Model.of_solver E slv).snd = [RefEvent.inc mdl.ctx.z3_ctx mdl.z3_mdl]) ∧
    ((Model.of_solver E slv).fst = none → (Model.of_solver E slv).snd = []) ∧
    (∀ mdl, (Model.of_optimize E opt).fst = some mdl →
      (Model.of_optimize E opt).snd = [RefEvent.inc mdl.ctx.z3_ctx mdl.z3_mdl]) ∧
    ((Model.of_optimize E opt).fst = none → (Model.of_optimize E opt).snd = []) ∧
    ((Model.translate E m dest).snd =
      [RefEvent.inc (Model.translate E m dest).fst.ctx.z3_ctx
        (Model.translate E m dest).fst.z3_mdl]) ∧
    (Model.drop m = [RefEvent.dec m.ctx.z3_ctx m.z3_mdl]) ∧
    ((Model.eval ops E m a b).snd = []) ∧
    ((Model.get_num_consts E m).snd = []) ∧
    ((Model.get_const_decl E m i).snd = []) ∧
    ((Model.get_const_interp ops E m fd).snd = []) ∧
    ((Model.get_const_interp_unchecked ops E m fd).snd = []) ∧
    ((Model.fmtDisplay E m).snd = []) := by
  refine ⟨?_, ?_, ?_, ?_, ?_, rfl, ?_, rfl, ?_, ?_, ?_, ?_⟩
  · intro mdl h
    cases hS : E.solverModel slv.ctx.z3_ctx slv.z3_slv with
    | none => simp [Model.of_solver, hS] at h
    | some mh =>
        have : mdl = { ctx := slv.ctx, z3_mdl := mh } := by
          simpa [Model.of_solver, hS, Model.wrap] using h.symm
        subst this
        simp [Model.of_solver, hS, Model.wrap, Z3_model_inc_ref]
  · intro h
    cases hS : E.solverModel slv.ctx.z3_ctx slv.z3_slv with
    | none => simp [Model.of_solver, hS]
    | some mh => simp [Model.of_solver, hS] at h
  · intro mdl h
    cases hS : E.optimizeModel opt.ctx.z3_ctx opt.z3_opt with
    | none => simp [Model.of_optimize, hS] at h
    | some mh =>
        have : mdl = { ctx := opt.ctx, z3_mdl := mh } := by
          simpa [Model.of_optimize, hS, Model.wrap] using h.symm
        subst this
        simp [Model.of_optimize, hS, Model.wrap, Z3_model_inc_ref]
  · intro h
    cases hS : E.optimizeModel opt.ctx.z3_ctx opt.z3_opt with
    | none => simp [Model.of_optimize, hS]
    | some mh => simp [Model.of_optimize, hS] at h
  · rfl
  · cases hE : E.modelEval m.ctx.z3_ctx m.z3_mdl (ops.get_z3_ast a) b <;>
      simp [Model.eval, hE]
  · unfold Model.get_const_decl
    split <;> rfl
  · cases hI : E.constInterp m.ctx.z3_ctx m.z3_mdl fd.z3_func_decl with
    | none => simp [Model.get_const_interp, hI]
    | some r =>
        by_cases hs :
          ops.get_sort (ops.wrap m.ctx r) = ZSort.wrap m.ctx (E.astSort m.ctx.z3_ctx r) <;>
          simp [Model.get_const_interp, hI, hs]
  · cases hI : E.constInterp m.ctx.z3_ctx m.z3_mdl fd.z3_func_decl <;>
      simp [Model.get_const_interp_unchecked, hI]
  · cases hT : E.modelToString m.ctx.z3_ctx m.z3_mdl with
    | none => simp [Model.fmtDisplay, hT]
    | some p => cases hU : p.utf8Decode <;> simp [Model.fmtDisplay, hT, hU]

/-- Witness for C2 at the concrete fixtures: `of_solver` emits the single
increment on the wrapped handle, and dropping a model emits the single
decrement. -/
theorem model_refcount_discipline_witness :
    (Model.of_solver engA slvA).snd = [RefEvent.inc ctxA.z3_ctx 10] ∧
    Model.drop mdlA = [RefEvent.dec mdlA.ctx.z3_ctx mdlA.z3_mdl] := by
  constructor
  · exact (model_refcount_discipline opsA engA slvA optA mdlA ctxB 0 true fdA 0).1
      { ctx := ctxA, z3_mdl := 10 } (by decide)
  · exact (model_refcount_discipline opsA engA slvA optA mdlA ctxB 0 true fdA
      0).2.2.2.2.2.1

/-- C3: `get_const_decl` returns the empty case exactly for indices at or
beyond `get_num_consts` (so also on a model with zero constants), never an
error; for an in-range index it returns the wrap of the engine's index-th
constant declaration in the model's context. -/
theorem get_const_decl_range (E : Engine) (m : Model) (i : Nat) :
    ((Model.get_const_decl E m i).fst = none ↔ (Model.get_num_consts E m).fst ≤ i) ∧
    (i < (Model.get_num_consts E m).fst →
      (Model.get_const_decl E m i).fst =
        some (FuncDecl.wrap m.ctx (E.constDecl m.ctx.z3_ctx m.z3_mdl i))) := by
  constructor
  · by_cases hi : (Model.get_num_consts E m).fst ≤ i
    · simp [Model.get_const_decl, ge_iff_le, hi]
    · simp [Model.get_const_decl, ge_iff_le, hi]
  · intro hi
    have hi2 : ¬ i ≥ (Model.get_num_consts E m).fst := by omega
    simp [Model.get_const_decl, hi2]

/-- Witness for C3 at the concrete fixtures (`engA` reports two constants):
index 0 is in range and wraps declaration 100, indices 2 and 3 give the
empty case. -/
theorem get_const_decl_range_witness :
    (Model.get_const_decl engA mdlA 0).fst =
      some (FuncDecl.wrap mdlA.ctx (engA.constDecl mdlA.ctx.z3_ctx mdlA.z3_mdl 0)) ∧
    (Model.get_const_decl engA mdlA 2).fst = none ∧
    (Model.get_const_decl engA mdlA 3).fst = none := by
  refine ⟨?_, ?_, ?_⟩
  · exact (get_const_decl_range engA mdlA 0).2 (by decide)
  · exact (get_const_decl_range engA mdlA 2).1.mpr (by decide)
  · exact (get_const_decl_range engA mdlA 3).1.mpr (by decide)

/-- C4: `of_solver` yields the empty case exactly when the engine reports a
null model handle for the solver; otherwise it yields the model wrapping the
retrieved handle, bound to the solver's context, and performs exactly one
reference-count increment on that handle. -/
theorem of_solver_null_iff_none (E : Engine) (slv : Solver) :
    ((Model.of_solver E slv).fst = none ↔
      E.solverModel slv.ctx.z3_ctx slv.z3_slv = none) ∧
    (∀ h, E.solverModel slv.ctx.z3_ctx slv.z3_slv = some h →
      (Model.of_solver E slv).fst = some { ctx := slv.ctx, z3_mdl := h } ∧
      (Model.of_solver E slv).snd = [RefEvent.inc slv.ctx.z3_ctx h]) := by
  constructor
  · cases hS : E.solverModel slv.ctx.z3_ctx slv.z3_slv with
    | none => simp [Model.of_solver, hS]
    | some mh => simp [Model.of_solver, hS, Model.wrap]
  · intro h hS
    constructor
    · simp [Model.of_solver, hS, Model.wrap]
    · simp [Model.of_solver, hS, Model.wrap, Z3_model_inc_ref]

/-- Witness for C4 at the concrete fixtures: `engA` reports handle 10 for
`slvA`, and `of_solver` wraps it in the solver's context after one
increment. -/
theorem of_solver_null_iff_none_witness :
    (Model.of_solver engA slvA).fst = some { ctx := slvA.ctx, z3_mdl := 10 } ∧
    (Model.of_solver engA slvA).snd = [RefEvent.inc slvA.ctx.z3_ctx 10] := by
  exact (of_solver_null_iff_none engA slvA).2 10 (by decide)

/-- C5: `get_const_interp_unchecked` is the plain wrap of the engine's
interpretation (no sort is ever consulted, and no panic is possible); its
presence semantics agrees with the engine's null signal, exactly as the
checked variant's does; and whenever the interpretation's sort matches the
sort the wrapped value reports, the checked variant returns exactly the
unchecked variant's result. -/
theorem get_const_interp_unchecked_refines {α : Type} (ops : AstOps α)
    (E : Engine) (m : Model) (fd : FuncDecl) :
    ((Model.get_const_interp_unchecked ops E m fd).fst =
      Option.map (ops.wrap m.ctx) (E.constInterp m.ctx.z3_ctx m.z3_mdl fd.z3_func_decl)) ∧
    ((Model.get_const_interp_unchecked ops E m fd).fst = none ↔
      E.constInterp m.ctx.z3_ctx m.z3_mdl fd.z3_func_decl = none) ∧
    ((Model.get_const_interp ops E m fd).fst = RustOutcome.ok none ↔
      E.constInterp m.ctx.z3_ctx m.z3_mdl fd.z3_func_decl = none) ∧
    ((∀ a, E.constInterp m.ctx.z3_ctx m.z3_mdl fd.z3_func_decl = some a →
        ops.get_sort (ops.wrap m.ctx a) = ZSort.wrap m.ctx (E.astSort m.ctx.z3_ctx a)) →
      (Model.get_const_interp ops E m fd).fst =
        RustOutcome.ok (Model.get_const_interp_unchecked ops E m fd).fst) := by
  have hu : (Model.get_const_interp_unchecked ops E m fd).fst =
      Option.map (ops.wrap m.ctx) (E.constInterp m.ctx.z3_ctx m.z3_mdl fd.z3_func_decl) := by
    unfold Model.get_const_interp_unchecked
    cases E.constInterp m.ctx.z3_ctx m.z3_mdl fd.z3_func_decl <;> rfl
  refine ⟨hu, ?_, ?_, ?_⟩
  · rw [hu]
    cases E.constInterp m.ctx.z3_ctx m.z3_mdl fd.z3_func_decl <;> simp
  · rw [get_const_interp_fst_eq]
    cases hI : E.constInterp m.ctx.z3_ctx m.z3_mdl fd.z3_func_decl with
    | none => simp
    | some a =>
        by_cases hs :
          ops.get_sort (ops.wrap m.ctx a) = ZSort.wrap m.ctx (E.astSort m.ctx.z3_ctx a) <;>
          simp [hs]
  · intro hsorts
    rw [get_const_interp_fst_eq, hu]
    cases hI : E.constInterp m.ctx.z3_ctx m.z3_mdl fd.z3_func_decl with
    | none => rfl
    | some a => simp [hsorts a hI]

/-- Witness for C5 at the concrete fixtures: for a declaration whose
interpretation's sort matches the static sort of `opsA`, checked and
unchecked agree, and both report presence. -/
theorem get_const_interp_unchecked_refines_witness :
    (Model.get_const_interp opsA engA mdlA fdA).fst =
      RustOutcome.ok (Model.get_const_interp_unchecked opsA engA mdlA fdA).fst := by
  refine (get_const_interp_unchecked_refines opsA engA mdlA fdA).2.2.2 ?_
  intro a ha
  have h50 : engA.constInterp mdlA.ctx.z3_ctx mdlA.z3_mdl fdA.z3_func_decl = some 50 := by
    decide
  rw [h50] at ha
  injection ha with h
  subst h
  decide

/-- The two Rust casts `u32 as c_int` then `c_int as u32` compose to the
identity on the `u32` range. -/
theorem u32_cast_roundtrip (i : Nat) (hi : i < 4294967296) :
    c_int_as_u32 (u32_as_c_int i) = i := by
  unfold c_int_as_u32 u32_as_c_int
  split <;> omega

/-- C6 counterexample: for the string Symbol whose text is the single NUL
character, encoding panics, so no engine handle is produced that decoding
could take back to the original Symbol. -/
theorem symbol_roundtrip_cex :
    ¬ ∃ z, Symbol.as_z3_symbol (Symbol.String "\x00") ctxA = RustOutcome.ok z ∧
      Symbol.from_z3_symbol ctxA z = Symbol.String "\x00" := by
  rintro ⟨z, hz, _⟩
  have hp : Symbol.as_z3_symbol (Symbol.String "\x00") ctxA = RustOutcome.panicked := by
    decide
  rw [hp] at hz
  exact RustOutcome.noConfusion hz

/-- C6 (amended): encoding then decoding returns a Symbol equal to the
original for every integer Symbol (payload in the `u32` range) and for every
string Symbol whose text is free of interior NUL bytes; a string containing
an interior NUL byte instead makes the encoding panic without producing a
handle. -/
theorem symbol_roundtrip (ctx : Context) (i : Nat) (s : String) :
    (i < 4294967296 →
      ∃ z, Symbol.as_z3_symbol (Symbol.Int i) ctx = RustOutcome.ok z ∧
        Symbol.from_z3_symbol ctx z = Symbol.Int i) ∧
    (s.toList.contains (Char.ofNat 0) = false →
      ∃ z, Symbol.as_z3_symbol (Symbol.String s) ctx = RustOutcome.ok z ∧
        Symbol.from_z3_symbol ctx z = Symbol.String s) := by
  constructor
  · intro hi
    refine ⟨Z3SymbolV.int (u32_as_c_int i), rfl, ?_⟩
    show Symbol.Int (c_int_as_u32 (u32_as_c_int i)) = Symbol.Int i
    rw [u32_cast_roundtrip i hi]
  · intro hs
    have hs2 : Char.ofNat 0 ∉ s.data := by simpa using hs
    have hcs : cstring_new s = some s := by simp [cstring_new, hs2]
    refine ⟨Z3SymbolV.str s, ?_, rfl⟩
    simp [Symbol.as_z3_symbol, hcs, Z3_mk_string_symbol]

/-- Witness for the amended C6: a concrete integer Symbol and a concrete
NUL-free string Symbol both round-trip. -/
theorem symbol_roundtrip_witness :
    (∃ z, Symbol.as_z3_symbol (Symbol.Int 7) ctxA = RustOutcome.ok z ∧
      Symbol.from_z3_symbol ctxA z = Symbol.Int 7) ∧
    (∃ z, Symbol.as_z3_symbol (Symbol.String "xy") ctxA = RustOutcome.ok z ∧
      Symbol.from_z3_symbol ctxA z = Symbol.String "xy") :=
  ⟨(symbol_roundtrip ctxA 7 "xy").1 (by decide),
   (symbol_roundtrip ctxA 7 "xy").2 (by decide)⟩

/-- C7: `eval` performs no reference-count event (the only channel through
which the wrapper's model state can change); when the engine reports success
it returns the result handle wrapped with the model's own context; when the
engine reports failure it returns the empty case. -/
theorem eval_frame_and_result {α : Type} (ops : AstOps α) (E : Engine)
    (m : Model) (a : α) (b : Bool) :
    ((Model.eval ops E m a b).snd = []) ∧
    (∀ r, E.modelEval m.ctx.z3_ctx m.z3_mdl (ops.get_z3_ast a) b = some r →
      (Model.eval ops E m a b).fst = some (ops.wrap m.ctx r)) ∧
    (E.modelEval m.ctx.z3_ctx m.z3_mdl (ops.get_z3_ast a) b = none →
      (Model.eval ops E m a b).fst = none) := by
  refine ⟨?_, ?_, ?_⟩
  · cases hE : E.modelEval m.ctx.z3_ctx m.z3_mdl (ops.get_z3_ast a) b <;>
      simp [Model.eval, hE]
  · intro r hE
    simp [Model.eval, hE]
  · intro hE
    simp [Model.eval, hE]

/-- Witness for C7 at the concrete fixtures: with completion `engA` reports
success and `eval` wraps the result; without completion `engA` reports
failure and `eval` yields the empty case. -/
theorem eval_frame_and_result_witness :
    (Model.eval opsA engA mdlA 5 true).fst = some 6 ∧
    (Model.eval opsA engA mdlA 5 false).fst = none := by
  constructor
  · exact (eval_frame_and_result opsA engA mdlA 5 true).2.1 6 (by decide)
  · exact (eval_frame_and_result opsA engA mdlA 5 false).2.2 (by decide)

/-- C8: `translate` returns a model bound to the destination context,
wrapping the engine's translated handle, with its own single increment and
no decrement (so the source wrapper's reference is never released by it);
every query on the destination model performs no reference-count event and
leaves both wrappers untouched; and each of the two wrappers is released by
its own single decrement. -/
theorem translate_independence {α : Type} (ops : AstOps α) (E : Engine)
    (m : Model) (dest : Context) (a : α) (b : Bool) (fd : FuncDecl) (i : Nat) :
    ((Model.translate E m dest).fst.ctx = dest) ∧
    ((Model.translate E m dest).fst.z3_mdl =
      E.translateModel m.ctx.z3_ctx m.z3_mdl dest.z3_ctx) ∧
    ((Model.translate E m dest).snd =
      [RefEvent.inc dest.z3_ctx (E.translateModel m.ctx.z3_ctx m.z3_mdl dest.z3_ctx)]) ∧
    (∀ c h, RefEvent.dec c h ∉ (Model.translate E m dest).snd) ∧
    ((Model.eval ops E (Model.translate E m dest).fst a b).snd = []) ∧
    ((Model.get_num_consts E (Model.translate E m dest).fst).snd = []) ∧
    ((Model.get_const_decl E (Model.translate E m dest).fst i).snd = []) ∧
    ((Model.get_const_interp ops E (Model.translate E m dest).fst fd).snd = []) ∧
    ((Model.get_const_interp_unchecked ops E (Model.translate E m dest).fst fd).snd
      = []) ∧
    ((Model.fmtDisplay E (Model.translate E m dest).fst).snd = []) ∧
    (Model.drop m = [RefEvent.dec m.ctx.z3_ctx m.z3_mdl]) ∧
    (Model.drop (Model.translate E m dest).fst =
      [RefEvent.dec dest.z3_ctx (E.translateModel m.ctx.z3_ctx m.z3_mdl dest.z3_ctx)]) := by
  refine ⟨rfl, rfl, rfl, ?_, ?_, rfl, ?_, ?_, ?_, ?_, rfl, rfl⟩
  · intro c h
    simp [Model.translate, Model.wrap, Z3_model_inc_ref]
  · cases hE : E.modelEval (Model.translate E m dest).fst.ctx.z3_ctx
      (Model.translate E m dest).fst.z3_mdl (ops.get_z3_ast a) b <;>
      simp [Model.eval, hE]
  · unfold Model.get_const_decl
    split <;> rfl
  · cases hI : E.constInterp (Model.translate E m dest).fst.ctx.z3_ctx
      (Model.translate E m dest).fst.z3_mdl fd.z3_func_decl with
    | none => simp [Model.get_const_interp, hI]
    | some r =>
        by_cases hs : ops.get_sort (ops.wrap (Model.translate E m dest).fst.ctx r) =
            ZSort.wrap (Model.translate E m dest).fst.ctx
              (E.astSort (Model.translate E m dest).fst.ctx.z3_ctx r) <;>
          simp [Model.get_const_interp, hI, hs]
  · cases hI : E.constInterp (Model.translate E m dest).fst.ctx.z3_ctx
      (Model.translate E m dest).fst.z3_mdl fd.z3_func_decl <;>
      simp [Model.get_const_interp_unchecked, hI]
  · cases hT : E.modelToString (Model.translate E m dest).fst.ctx.z3_ctx
      (Model.translate E m dest).fst.z3_mdl with
    | none => simp [Model.fmtDisplay, hT]
    | some p => cases hU : p.utf8Decode <;> simp [Model.fmtDisplay, hT, hU]

/-- Witness for C8 at the concrete fixtures: the translated model is bound
to the destination context and the translation emits no decrement on the
source handle. -/
theorem translate_independence_witness :
    (Model.translate engA mdlA ctxB).fst.ctx = ctxB ∧
    RefEvent.dec ctxA.z3_ctx 10 ∉ (Model.translate engA mdlA ctxB).snd :=
  ⟨(translate_independence opsA engA mdlA ctxB 0 true fdA 0).1,
   (translate_independence opsA engA mdlA ctxB 0 true fdA 0).2.2.2.1 ctxA.z3_ctx 10⟩

/-- C9: textual rendering yields the error value of the formatting result
type (never a panic, which the result type cannot even express) exactly when
the engine returns a null string pointer or the returned bytes are not valid
text; otherwise it renders exactly the engine's string form of the model. -/
theorem display_error_iff (E : Engine) (m : Model) :
    ((Model.fmtDisplay E m).fst = Except.error () ↔
      (E.modelToString m.ctx.z3_ctx m.z3_mdl = none ∨
       ∃ p, E.modelToString m.ctx.z3_ctx m.z3_mdl = some p ∧ p.utf8Decode = none)) ∧
    (∀ p s, E.modelToString m.ctx.z3_ctx m.z3_mdl = some p → p.utf8Decode = some s →
      (Model.fmtDisplay E m).fst = Except.ok s) := by
  constructor
  · cases hT : E.modelToString m.ctx.z3_ctx m.z3_mdl with
    | none => simp [Model.fmtDisplay, hT]
    | some p =>
        cases hU : p.utf8Decode with
        | none => simp [Model.fmtDisplay, hT, hU]
        | some s => simp [Model.fmtDisplay, hT, hU]
  · intro p s hT hU
    simp [Model.fmtDisplay, hT, hU]

/-- An engine identical to `engA` except that `Z3_model_to_string` returns a
null pointer. -/
def engB : Engine := { engA with modelToString := fun _ _ => none }

/-- An engine identical to `engA` except that `Z3_model_to_string` returns
bytes that are not valid text. -/
def engC : Engine :=
  { engA with modelToString := fun _ _ => some { utf8Decode := none } }

/-- Witness for C9 at the concrete fixtures: `engA` renders to its string,
a null pointer and invalid bytes both surface as the formatting error. -/
theorem display_error_iff_witness :
    (Model.fmtDisplay engA mdlA).fst = Except.ok "model" ∧
    (Model.fmtDisplay engB mdlA).fst = Except.error () ∧
    (Model.fmtDisplay engC mdlA).fst = Except.error () := by
  refine ⟨?_, ?_, ?_⟩
  · exact (display_error_iff engA mdlA).2 { utf8Decode := some "model" } "model"
      (by decide) (by decide)
  · exact (display_error_iff engB mdlA).1.mpr (Or.inl (by decide))
  · exact (display_error_iff engC mdlA).1.mpr
      (Or.inr ⟨{ utf8Decode := none }, by decide, by decide⟩)

/-- C10: on the string variant, `as_z3_symbol` panics (on the failed
null-terminated conversion) exactly when the text contains an interior NUL
byte; for NUL-free strings the conversion never panics. -/
theorem as_z3_symbol_nul_panic (ctx : Context) (s : String) :
    Symbol.as_z3_symbol (Symbol.String s) ctx = RustOutcome.panicked ↔
      s.toList.contains (Char.ofNat 0) = true := by
  unfold Symbol.as_z3_symbol cstring_new
  by_cases h : Char.ofNat 0 ∈ s.data <;> simp [h]

/-- Witness for C10: a concrete string with an interior NUL panics, a
concrete NUL-free string does not. -/
theorem as_z3_symbol_nul_panic_witness :
    Symbol.as_z3_symbol (Symbol.String "a\x00b") ctxA = RustOutcome.panicked ∧
    Symbol.as_z3_symbol (Symbol.String "ab") ctxA ≠ RustOutcome.panicked := by
  constructor
  · exact (as_z3_symbol_nul_panic ctxA "a\x00b").mpr (by decide)
  · intro h
    exact absurd ((as_z3_symbol_nul_panic ctxA "ab").mp h) (by decide)

end Z3
